import Mathlib

/-!
Verification development for the quote dispatch and selection engine of the
uniswapx parameterization API.  The definitions below are shallow embeddings
of the TypeScript source: the S3-backed circuit-breaker configuration
provider, the WebhookQuoter (eligibility filtering, per-endpoint fetch with
classification), and the best-quote selection in the quote handler.
Machine numbers are modelled as Nat (amounts, timeouts) and Rat (fade
rates); fallible operations (S3 fetches, HTTP calls) are modelled as
Except/sum-typed inputs so that both the success and the failure path of the
source are represented.
-/

/-- Endpoint descriptor, from the WebhookConfiguration consumed by
WebhookQuoter: display name, stable identity hash, URL, optional allowed
chain-id list, optional per-endpoint timeout override
(overrides?.timeout collapsed into one Option). -/
structure WebhookConfiguration where
  name : String
  hash : String
  endpoint : String
  chainIds : Option (List Nat)
  timeoutOverride : Option Nat
  deriving DecidableEq

/-- Admission record, from CircuitBreakerConfiguration: name, fade rate,
derived enabled flag.  The hash field is optional because the write path in
the source stores only name, fadeRate and enabled. -/
structure CircuitBreakerConfiguration where
  name : String
  hash : Option String
  fadeRate : Rat
  enabled : Bool
  deriving DecidableEq

/-- Trade direction of a request, from the sdk TradeType enum. -/
inductive TradeType where
  | exactInput
  | exactOutput
  deriving DecidableEq

/-- Quote request fields used by the dispatch engine: request id, swapper
address, chain id of the input token, trade direction. -/
structure QuoteRequest where
  requestId : String
  swapper : String
  tokenInChainId : Nat
  tradeType : TradeType
  deriving DecidableEq

/-- Parsed quote response fields used by classification and selection:
request id echoed by the filler, swapper, amountIn, amountOut.
Modelled from the spec: the parser QuoteResponse.fromRFQ lives outside the
provided sources; per the spec the response body parses into a quote with
fields requestId, amountIn, amountOut, swapper, with non-negative amounts
(hence Nat). -/
structure QuoteResponse where
  requestId : String
  swapper : String
  amountIn : Nat
  amountOut : Nat
  deriving DecidableEq

/-! ## S3CircuitBreakerConfigurationProvider (src/unnamed/part_000) -/

/-- Mutable state of S3CircuitBreakerConfigurationProvider: the cached
fillers snapshot and the last-refresh timestamp (milliseconds). -/
structure S3ProviderState where
  fillers : List CircuitBreakerConfiguration
  lastUpdatedTimestamp : Int
  deriving DecidableEq

/-- UPDATE_PERIOD_MS = 5 * 60000 from the provider. -/
def UPDATE_PERIOD_MS : Int := 5 * 60000

/-- FILL_RATE_THRESHOLD = 0.4 from the provider. -/
def FILL_RATE_THRESHOLD : Rat := 2 / 5

/-- One step of getConfigurations.  The refetch performed by
fetchConfigurations is modelled as an Except-valued input: in the source,
this.fillers is assigned only after the S3 send, the Body presence check,
the body read and JSON.parse have all succeeded, so a throw at any of those
points leaves this.fillers untouched, and the assignment of
this.lastUpdatedTimestamp in getConfigurations is skipped because the await
rethrows.  now is the Date.now() read in the staleness test and now2 the
Date.now() read after a successful refetch. -/
def getConfigurations (st : S3ProviderState) (now now2 : Int)
    (fetchResult : Except Unit (List CircuitBreakerConfiguration)) :
    Except Unit (List CircuitBreakerConfiguration) × S3ProviderState :=
  if st.fillers.length = 0 ∨ now - st.lastUpdatedTimestamp > UPDATE_PERIOD_MS then
    match fetchResult with
    | Except.error e => (Except.error e, st)
    | Except.ok newFillers =>
        (Except.ok newFillers, { fillers := newFillers, lastUpdatedTimestamp := now2 })
  else
    (Except.ok st.fillers, st)

/-- putConfigurations: one record per fade-rate map entry, with
enabled = rate < FILL_RATE_THRESHOLD; no hash field is written.  The map is
modelled as its entry list in iteration order. -/
def putConfigurations (fillRates : List (String × Rat)) :
    List CircuitBreakerConfiguration :=
  fillRates.map (fun p =>
    { name := p.1, hash := none, fadeRate := p.2,
      enabled := decide (p.2 < FILL_RATE_THRESHOLD) })

/-- Stored S3 object after a PutObjectCommand: full-document replace, the
previous stored contents do not enter the computation. -/
def storedAfterPut (_prev : Option (List CircuitBreakerConfiguration))
    (fillRates : List (String × Rat)) : Option (List CircuitBreakerConfiguration) :=
  some (putConfigurations fillRates)

/-! ## WebhookQuoter eligibility (src/unnamed/part_001, getEligibleEndpoints) -/

/-- Lookup in the Map built by new Map(config.map(c => [c.hash, c])):
JS Map construction lets a later entry for the same key overwrite an
earlier one, so the lookup returns the last record whose hash matches. -/
def mapGet (config : List CircuitBreakerConfiguration) (h : String) :
    Option CircuitBreakerConfiguration :=
  (config.filter (fun c => c.hash == some h)).getLast?

/-- The enabling test of getEligibleEndpoints, literally:
ALLOW_LIST.has(e.hash) or (map.has(e.hash) and map.get(e.hash)?.enabled)
or not map.has(e.hash); the optional-chaining access map.get(..)?.enabled
is undefined (falsy) when the key is absent, hence the getD false. -/
def endpointEnabled (allowList : List String)
    (config : List CircuitBreakerConfiguration) (e : WebhookConfiguration) : Bool :=
  allowList.contains e.hash ||
    ((mapGet config e.hash).isSome &&
      ((mapGet config e.hash).map CircuitBreakerConfiguration.enabled).getD false) ||
    !(mapGet config e.hash).isSome

/-- Body of getEligibleEndpoints after the endpoint directory has been
fetched: the circuit-breaker fetch sits inside the try, so an admission
fetch failure is caught and every directory endpoint is returned; on
success the endpoints are filtered by the enabling test.  (The source's
if-config test is always true since the parsed config is an array, so the
fall-through return is dead code and not modelled.) -/
def getEligibleEndpoints (allowList : List String)
    (endpoints : List WebhookConfiguration)
    (admission : Except Unit (List CircuitBreakerConfiguration)) :
    List WebhookConfiguration :=
  match admission with
  | Except.error _ => endpoints
  | Except.ok config => endpoints.filter (fun e => endpointEnabled allowList config e)

/-- Whole eligibility stage of quote: the directory fetch
(webhookProvider.getEndpoints) is awaited before the try block, so a throw
there propagates out of getEligibleEndpoints and out of quote. -/
def getEligibleEndpointsFull (allowList : List String)
    (directory : Except Unit (List WebhookConfiguration))
    (admission : Except Unit (List CircuitBreakerConfiguration)) :
    Except Unit (List WebhookConfiguration) :=
  match directory with
  | Except.error e => Except.error e
  | Except.ok endpoints => Except.ok (getEligibleEndpoints allowList endpoints admission)

/-! ## WebhookQuoter.quote compliance stage (src/unnamed/part_001, lines 35-46) -/

/-- Lookup in the endpoint-to-excluded-addresses map. -/
def lookupExcludedAddrs (m : List (String × List String)) (k : String) :
    Option (List String) :=
  (m.find? (fun p => p.1 == k)).map Prod.snd

/-- The compliance predicate computed inside quote:
map.get(e.endpoint) === undefined or not map.get(e.endpoint)?.has(request.swapper). -/
def compliancePred (endpointToAddrsMap : List (String × List String))
    (request : QuoteRequest) (e : WebhookConfiguration) : Bool :=
  match lookupExcludedAddrs endpointToAddrsMap e.endpoint with
  | none => true
  | some addrs => !addrs.contains request.swapper

/-- The endpoint list that quote actually dispatches to.  The source calls
endpoints.filter(compliance predicate) but never assigns or uses the
returned array (Array.prototype.filter is non-mutating), so the subsequent
Promise.all maps fetchQuote over the unfiltered eligible list. -/
def quoteDispatchEndpoints (eligibleEndpoints : List WebhookConfiguration)
    (endpointToAddrsMap : List (String × List String)) (request : QuoteRequest) :
    List WebhookConfiguration :=
  let _discarded := eligibleEndpoints.filter (compliancePred endpointToAddrsMap request)
  eligibleEndpoints

/-! ## WebhookQuoter.fetchQuote (src/unnamed/part_001, lines 83-244) -/

/-- WEBHOOK_TIMEOUT_MS = 500 from the quoter. -/
def WEBHOOK_TIMEOUT_MS : Nat := 500

/-- The axios timeout setting: timeoutOverride ? Number(timeoutOverride) :
WEBHOOK_TIMEOUT_MS.  JS truthiness makes a numeric override of 0 falsy, so
it falls through to the 500 ms default exactly like an absent override. -/
def axiosTimeoutSetting (config : WebhookConfiguration) : Nat :=
  match config.timeoutOverride with
  | some t => if t ≠ 0 then t else WEBHOOK_TIMEOUT_MS
  | none => WEBHOOK_TIMEOUT_MS

/-- An HTTP response from an endpoint as fetchQuote consumes it: the status
code, the parsed quote fields and whether Joi validation reported an error.
Modelled from the spec: QuoteResponse.fromRFQ and its validation are
outside the provided sources; their output (a parsed response plus a
validation result) is carried here as data on the response. -/
structure HookResponse where
  status : Nat
  response : QuoteResponse
  validationError : Bool
  deriving DecidableEq

/-- Transport-level failure kinds distinguished by the catch block:
ECONNABORTED AxiosError, other AxiosError, non-Axios error. -/
inductive TransportErrorKind where
  | timeout
  | httpError
  | otherError
  deriving DecidableEq

/-- Result of one axios.post: either a delivered HTTP response or a
transport failure (a rejected promise). -/
inductive CallResult where
  | success (resp : HookResponse)
  | failure (k : TransportErrorKind)
  deriving DecidableEq

/-- The responseType tags sent to analytics by fetchQuote. -/
inductive ResponseType where
  | noQuote
  | validationFailed
  | requestIdMismatch
  | ok
  | timeout
  | httpError
  | otherError
  deriving DecidableEq

/-- Analytics tag for a transport failure, from the catch block. -/
def TransportErrorKind.toResponseType : TransportErrorKind → ResponseType
  | TransportErrorKind.timeout => ResponseType.timeout
  | TransportErrorKind.httpError => ResponseType.httpError
  | TransportErrorKind.otherError => ResponseType.otherError

/-- The amount examined by the non-quote test: amountOut for exact-input
requests, amountIn for exact-output requests. -/
def relevantAmount (request : QuoteRequest) (parsed : QuoteResponse) : Nat :=
  match request.tradeType with
  | TradeType.exactInput => parsed.amountOut
  | TradeType.exactOutput => parsed.amountIn

/-- isNonQuote: status 404, or zero amount in the relevant direction. -/
def isNonQuote (request : QuoteRequest) (hookResponse : HookResponse) : Bool :=
  if hookResponse.status == 404 then true
  else if relevantAmount request hookResponse.response == 0 then true
  else false

/-- The classification chain of fetchQuote on a delivered primary response,
in source order: non-quote test first, then the validation error test, then
the request-id match, else success.  Returns the analytics tag and the
value returned to the caller (none models returning null). -/
def classifyResponse (request : QuoteRequest) (hookResponse : HookResponse) :
    ResponseType × Option QuoteResponse :=
  if isNonQuote request hookResponse then (ResponseType.noQuote, none)
  else if hookResponse.validationError then (ResponseType.validationFailed, none)
  else if hookResponse.response.requestId ≠ request.requestId then
    (ResponseType.requestIdMismatch, none)
  else (ResponseType.ok, some hookResponse.response)

/-- fetchQuote as a function of the two call results.  The chain-id filter
returns null before any call (no analytics tag).  The two posts are awaited
with Promise.all, which rejects as soon as either input promise rejects, so
a failure of the opposing-side probe also lands in the catch block and
yields null; when both promises reject, Promise.all delivers the temporally
first rejection, modelled here as the primary one (the returned quote is
none either way).  On two delivered responses only the primary is
classified; the opposing response feeds logging only. -/
def fetchQuoteResult (config : WebhookConfiguration) (request : QuoteRequest)
    (primary opposing : CallResult) : Option ResponseType × Option QuoteResponse :=
  if config.chainIds.isSome ∧ ¬((config.chainIds.getD []).contains request.tokenInChainId) then
    (none, none)
  else
    match primary, opposing with
    | CallResult.success hookResponse, CallResult.success _ =>
        let c := classifyResponse request hookResponse
        (some c.1, c.2)
    | CallResult.failure k, _ => (some k.toResponseType, none)
    | CallResult.success _, CallResult.failure k => (some k.toResponseType, none)

/-! ## Best-quote selection (src/lib/handlers/quote/handler.ts, getBestQuote) -/

/-- One step of the reduce in getBestQuote: keep the incoming quote iff
there is no best yet or its amountOut strictly exceeds the best so far. -/
def getBestQuoteStep (bestQuote : Option QuoteResponse) (quote : QuoteResponse) :
    Option QuoteResponse :=
  match bestQuote with
  | none => some quote
  | some b => if quote.amountOut > b.amountOut then some quote else some b

/-- getBestQuote: reduce with null initial accumulator over the responses. -/
def getBestQuote (responses : List QuoteResponse) : Option QuoteResponse :=
  responses.foldl getBestQuoteStep none

/-- The selection stage applied to per-endpoint outcomes: WebhookQuoter.quote
filters out the null results (non-Success outcomes) and the handler reduces
the remaining responses with getBestQuote. -/
def selectBest (outcomes : List (Option QuoteResponse)) : Option QuoteResponse :=
  getBestQuote (outcomes.filterMap id)

/-! ## Theorems -/

/-- C10.  If the refetch fails at any point (S3 send, body presence check,
body read or JSON parse), getConfigurations leaves the provider state
unchanged: the cached fillers snapshot and the last-refresh timestamp keep
their prior values, so a later call observes the same state. -/
theorem getConfigurations_error_preserves_state (st : S3ProviderState)
    (now now2 : Int) :
    (getConfigurations st now now2 (Except.error ())).2 = st := by
  unfold getConfigurations
  split <;> rfl

/-- Element of the stored snapshot at index i, for the C9 statement. -/
lemma putConfigurations_getD (fillRates : List (String × Rat)) (i : Nat) :
    (putConfigurations fillRates).getD i { name := "", hash := none, fadeRate := 0, enabled := false } =
      match fillRates.get? i with
      | some p => { name := p.1, hash := none, fadeRate := p.2,
                    enabled := decide (p.2 < FILL_RATE_THRESHOLD) }
      | none => { name := "", hash := none, fadeRate := 0, enabled := false } := by
  induction fillRates generalizing i with
  | nil => cases i <;> rfl
  | cons p rest ih =>
    cases i with
    | zero => rfl
    | succ j => simpa [putConfigurations, List.getD] using ih j

/-- C9.  The admission write path stores exactly one record per fade-rate
map entry, carrying that entry's name and fade rate, with enabled true iff
the rate is strictly below the 0.4 threshold; the stored snapshot is a full
replace, independent of the previously stored contents. -/
theorem putConfigurations_spec (prev : Option (List CircuitBreakerConfiguration))
    (fillRates : List (String × Rat)) (i : Nat) (hi : i < fillRates.length) :
    storedAfterPut prev fillRates = some (putConfigurations fillRates) ∧
    (putConfigurations fillRates).length = fillRates.length ∧
    ((putConfigurations fillRates).getD i { name := "", hash := none, fadeRate := 0, enabled := false }).name =
      (fillRates.getD i ("", 0)).1 ∧
    ((putConfigurations fillRates).getD i { name := "", hash := none, fadeRate := 0, enabled := false }).fadeRate =
      (fillRates.getD i ("", 0)).2 ∧
    (((putConfigurations fillRates).getD i { name := "", hash := none, fadeRate := 0, enabled := false }).enabled = true ↔
      (fillRates.getD i ("", 0)).2 < FILL_RATE_THRESHOLD) := by
  obtain ⟨p, hp⟩ : ∃ p, fillRates.get? i = some p :=
    ⟨fillRates.get ⟨i, hi⟩, List.get?_eq_get hi⟩
  have hgd : fillRates.getD i ("", 0) = p := by
    rw [List.get?_eq_getElem?] at hp
    simp [List.getD, hp]
  rw [putConfigurations_getD, hp, hgd]
  refine ⟨rfl, by simp [putConfigurations], rfl, rfl, ?_⟩
  simp

/-- Witness for C9 at a concrete two-entry map and index 0. -/
theorem putConfigurations_spec_witness :
    ((putConfigurations [("fillerA", (1 : Rat) / 2), ("fillerB", (3 : Rat) / 10)]).getD 0
        { name := "", hash := none, fadeRate := 0, enabled := false }).name = "fillerA" ∧
    (((putConfigurations [("fillerA", (1 : Rat) / 2), ("fillerB", (3 : Rat) / 10)]).getD 0
        { name := "", hash := none, fadeRate := 0, enabled := false }).enabled = true ↔
      (1 : Rat) / 2 < FILL_RATE_THRESHOLD) := by
  have h := putConfigurations_spec none
    [("fillerA", (1 : Rat) / 2), ("fillerB", (3 : Rat) / 10)] 0 (by decide)
  exact ⟨h.2.2.1, h.2.2.2.2⟩

/-- C8 counterexample.  An endpoint whose configuration carries a present
timeout override of 0 is not bounded by its override: the axios timeout
setting falls back to 500 ms, because the source tests the override with JS
truthiness before using it. -/
theorem axiosTimeoutSetting_zero_override_counterexample :
    (({ name := "filler", hash := "h1", endpoint := "https://filler.example",
        chainIds := none, timeoutOverride := some 0 } : WebhookConfiguration).timeoutOverride =
      some 0) ∧
    axiosTimeoutSetting
      { name := "filler", hash := "h1", endpoint := "https://filler.example",
        chainIds := none, timeoutOverride := some 0 } = 500 ∧
    (500 : Nat) ≠ 0 := by
  refine ⟨rfl, rfl, by decide⟩

/-- C8 amended.  The timeout setting equals the endpoint's override when
the override is present and nonzero, and equals the 500 ms global default
when the override is absent or zero. -/
theorem axiosTimeoutSetting_spec (config : WebhookConfiguration) :
    (∀ t, config.timeoutOverride = some t → t ≠ 0 → axiosTimeoutSetting config = t) ∧
    (config.timeoutOverride = none → axiosTimeoutSetting config = WEBHOOK_TIMEOUT_MS) ∧
    (config.timeoutOverride = some 0 → axiosTimeoutSetting config = WEBHOOK_TIMEOUT_MS) := by
  refine ⟨?_, ?_, ?_⟩
  · intro t ht htz
    simp [axiosTimeoutSetting, ht, htz]
  · intro ht
    simp [axiosTimeoutSetting, ht]
  · intro ht
    simp [axiosTimeoutSetting, ht]

/-- Witness for the amended C8 at a concrete nonzero override and at an
absent override. -/
theorem axiosTimeoutSetting_spec_witness :
    axiosTimeoutSetting
      { name := "filler", hash := "h1", endpoint := "https://filler.example",
        chainIds := none, timeoutOverride := some 300 } = 300 ∧
    axiosTimeoutSetting
      { name := "filler", hash := "h1", endpoint := "https://filler.example",
        chainIds := none, timeoutOverride := none } = WEBHOOK_TIMEOUT_MS := by
  exact ⟨(axiosTimeoutSetting_spec _).1 300 rfl (by decide),
    (axiosTimeoutSetting_spec _).2.1 rfl⟩

/-- C4 counterexample.  When the endpoint directory fetch throws, the
eligibility stage propagates the failure instead of degrading: the
directory fetch is awaited before the try block of getEligibleEndpoints. -/
theorem directory_failure_propagates_counterexample :
    getEligibleEndpointsFull [] (Except.error ()) (Except.ok []) = Except.error () := by
  rfl

/-- C4 amended.  When the admission configuration fetch throws, the quote
operation does not propagate the failure: the catch block degrades to the
open policy and every directory endpoint is treated as eligible for
admission purposes.  A failure of the directory fetch itself propagates. -/
theorem admission_failure_open_policy (allowList : List String)
    (endpoints : List WebhookConfiguration) :
    getEligibleEndpointsFull allowList (Except.ok endpoints) (Except.error ()) =
      Except.ok endpoints := by
  rfl

/-- C1.  The quote operation does not exclude an endpoint whose exclusion
set contains the request's swapper: the compliance filter expression is
computed but its result is discarded, so the dispatch list still contains
the endpoint even though the filter (as the spec intends it) would have
removed it. -/
theorem quote_dispatches_to_excluded_endpoint :
    quoteDispatchEndpoints
        [{ name := "filler", hash := "h1", endpoint := "https://filler.example",
           chainIds := none, timeoutOverride := none }]
        [("https://filler.example", ["0xswapper"])]
        { requestId := "rid", swapper := "0xswapper", tokenInChainId := 1,
          tradeType := TradeType.exactInput } =
      [{ name := "filler", hash := "h1", endpoint := "https://filler.example",
         chainIds := none, timeoutOverride := none }] ∧
    List.filter
        (compliancePred [("https://filler.example", ["0xswapper"])]
          { requestId := "rid", swapper := "0xswapper", tokenInChainId := 1,
            tradeType := TradeType.exactInput })
        [{ name := "filler", hash := "h1", endpoint := "https://filler.example",
           chainIds := none, timeoutOverride := none }] = [] := by
  refine ⟨rfl, by decide⟩

/-- C2 counterexample.  With the same successful primary response, the
quote returned by fetchQuote differs depending on the opposing-side probe:
a delivered opposing response lets the primary quote through, while an
opposing timeout rejects the joint Promise.all and fetchQuote returns null.
So the opposing-side result does change whether a quote is returned. -/
theorem fetchQuote_opposing_failure_counterexample :
    (fetchQuoteResult
        { name := "filler", hash := "h1", endpoint := "https://filler.example",
          chainIds := none, timeoutOverride := none }
        { requestId := "rid", swapper := "0xswap", tokenInChainId := 1,
          tradeType := TradeType.exactInput }
        (CallResult.success
          { status := 200,
            response := { requestId := "rid", swapper := "0xswap", amountIn := 5, amountOut := 100 },
            validationError := false })
        (CallResult.success
          { status := 200,
            response := { requestId := "rid", swapper := "0xswap", amountIn := 5, amountOut := 100 },
            validationError := false })).2 =
      some { requestId := "rid", swapper := "0xswap", amountIn := 5, amountOut := 100 } ∧
    (fetchQuoteResult
        { name := "filler", hash := "h1", endpoint := "https://filler.example",
          chainIds := none, timeoutOverride := none }
        { requestId := "rid", swapper := "0xswap", tokenInChainId := 1,
          tradeType := TradeType.exactInput }
        (CallResult.success
          { status := 200,
            response := { requestId := "rid", swapper := "0xswap", amountIn := 5, amountOut := 100 },
            validationError := false })
        (CallResult.failure TransportErrorKind.timeout)).2 = none := by
  refine ⟨by decide, by decide⟩

/-- C2 amended.  The opposing-side response value never influences the
quote returned to the caller: for any two delivered opposing responses the
result is identical, since only the primary response is classified.  But an
opposing-side transport failure or timeout makes fetchQuote return no quote
regardless of the primary response, because Promise.all rejects. -/
theorem fetchQuote_opposing_value_independent :
    (∀ (config : WebhookConfiguration) (request : QuoteRequest)
        (primary : CallResult) (h1 h2 : HookResponse),
      (fetchQuoteResult config request primary (CallResult.success h1)).2 =
        (fetchQuoteResult config request primary (CallResult.success h2)).2) ∧
    (∀ (config : WebhookConfiguration) (request : QuoteRequest)
        (primary : CallResult) (k : TransportErrorKind),
      (fetchQuoteResult config request primary (CallResult.failure k)).2 = none) := by
  constructor
  · intro config request primary h1 h2
    unfold fetchQuoteResult
    split
    · rfl
    · cases primary <;> rfl
  · intro config request primary k
    unfold fetchQuoteResult
    split
    · rfl
    · cases primary <;> rfl

/-- C6.  A response with HTTP status 404, or with a parsed amount of zero
in the relevant direction (amountOut for exact-input, amountIn for
exact-output), is classified NO_QUOTE and yields no quote; the non-quote
test runs before the validation test, so such a response is never
classified as a validation error or as a success, whatever its validation
result. -/
theorem nonQuote_classified_noQuote (request : QuoteRequest) (h : HookResponse)
    (hcond : h.status = 404 ∨ relevantAmount request h.response = 0) :
    classifyResponse request h = (ResponseType.noQuote, none) := by
  have hnq : isNonQuote request h = true := by
    rcases hcond with h404 | h0
    · simp [isNonQuote, h404]
    · unfold isNonQuote
      split
      · rfl
      · simp [h0]
  simp [classifyResponse, hnq]

/-- Witness for C6: a 404 response that would fail validation is still
classified NO_QUOTE, and a zero-amountOut exact-input response likewise. -/
theorem nonQuote_classified_noQuote_witness :
    classifyResponse
        { requestId := "rid", swapper := "0xswap", tokenInChainId := 1,
          tradeType := TradeType.exactInput }
        { status := 404,
          response := { requestId := "other", swapper := "0xswap", amountIn := 5, amountOut := 7 },
          validationError := true } = (ResponseType.noQuote, none) ∧
    classifyResponse
        { requestId := "rid", swapper := "0xswap", tokenInChainId := 1,
          tradeType := TradeType.exactInput }
        { status := 200,
          response := { requestId := "rid", swapper := "0xswap", amountIn := 5, amountOut := 0 },
          validationError := false } = (ResponseType.noQuote, none) := by
  exact ⟨nonQuote_classified_noQuote _ _ (Or.inl rfl),
    nonQuote_classified_noQuote _ _ (Or.inr rfl)⟩

/-- C7 counterexample.  A response that passes validation but has a
mismatched requestId is classified NO_QUOTE, not REQUEST_ID_MISMATCH, when
it is also an explicit non-quote (here: HTTP 404): the non-quote test runs
first.  So the claim as stated fails for such responses. -/
theorem requestId_mismatch_counterexample :
    (({ status := 404,
        response := { requestId := "other", swapper := "0xswap", amountIn := 5, amountOut := 100 },
        validationError := false } : HookResponse).validationError = false) ∧
    ("other" : String) ≠ "rid" ∧
    classifyResponse
        { requestId := "rid", swapper := "0xswap", tokenInChainId := 1,
          tradeType := TradeType.exactInput }
        { status := 404,
          response := { requestId := "other", swapper := "0xswap", amountIn := 5, amountOut := 100 },
          validationError := false } = (ResponseType.noQuote, none) ∧
    classifyResponse
        { requestId := "rid", swapper := "0xswap", tokenInChainId := 1,
          tradeType := TradeType.exactInput }
        { status := 404,
          response := { requestId := "other", swapper := "0xswap", amountIn := 5, amountOut := 100 },
          validationError := false } ≠ (ResponseType.requestIdMismatch, none) := by
  refine ⟨rfl, by decide, by decide, by decide⟩

/-- C7 amended.  A response that is not an explicit non-quote (neither
HTTP 404 nor zero relevant amount) and passes validation, whose parsed
requestId differs from the request's, is classified REQUEST_ID_MISMATCH
and yields no quote, hence is never classified as a success. -/
theorem requestId_mismatch_classified (request : QuoteRequest) (h : HookResponse)
    (hnq : isNonQuote request h = false) (hv : h.validationError = false)
    (hid : h.response.requestId ≠ request.requestId) :
    classifyResponse request h = (ResponseType.requestIdMismatch, none) := by
  simp [classifyResponse, hnq, hv, hid]

/-- Witness for the amended C7 at a concrete validated, mismatched
response. -/
theorem requestId_mismatch_classified_witness :
    classifyResponse
        { requestId := "rid", swapper := "0xswap", tokenInChainId := 1,
          tradeType := TradeType.exactInput }
        { status := 200,
          response := { requestId := "other", swapper := "0xswap", amountIn := 5, amountOut := 100 },
          validationError := false } = (ResponseType.requestIdMismatch, none) := by
  exact requestId_mismatch_classified _ _ (by decide) rfl (by decide)

/-- C3.  With an available admission snapshot, an endpoint passes the
eligibility filter iff it comes from the directory and its hash is in the
static allow-list, or the snapshot's record for its hash (JS Map lookup:
the last record with that hash) has enabled true, or the snapshot has no
record for its hash; in particular an endpoint whose record has enabled
false and which is not allow-listed is excluded. -/
theorem getEligibleEndpoints_spec (allowList : List String)
    (config : List CircuitBreakerConfiguration)
    (endpoints : List WebhookConfiguration) (e : WebhookConfiguration) :
    e ∈ getEligibleEndpoints allowList endpoints (Except.ok config) ↔
      e ∈ endpoints ∧
        (e.hash ∈ allowList ∨
         (∃ c, mapGet config e.hash = some c ∧ c.enabled = true) ∨
         mapGet config e.hash = none) := by
  unfold getEligibleEndpoints
  rw [List.mem_filter]
  refine and_congr_right (fun _ => ?_)
  cases hmg : mapGet config e.hash with
  | none => simp [endpointEnabled, hmg]
  | some c =>
    cases hc : c.enabled <;>
      simp [endpointEnabled, hmg, hc]

/-- Running best of the reduce once the accumulator is the response b, used
to reason about getBestQuote. -/
def bestFrom (b : QuoteResponse) : List QuoteResponse → QuoteResponse
  | [] => b
  | q :: rest => bestFrom (if q.amountOut > b.amountOut then q else b) rest

lemma foldl_getBestQuoteStep_some (l : List QuoteResponse) :
    ∀ b, l.foldl getBestQuoteStep (some b) = some (bestFrom b l) := by
  induction l with
  | nil => intro b; rfl
  | cons q rest ih =>
    intro b
    have hstep : getBestQuoteStep (some b) q =
        some (if q.amountOut > b.amountOut then q else b) := by
      simp only [getBestQuoteStep]
      split <;> rfl
    calc (q :: rest).foldl getBestQuoteStep (some b)
        = rest.foldl getBestQuoteStep (getBestQuoteStep (some b) q) := rfl
      _ = rest.foldl getBestQuoteStep
            (some (if q.amountOut > b.amountOut then q else b)) := by rw [hstep]
      _ = some (bestFrom (if q.amountOut > b.amountOut then q else b) rest) := ih _
      _ = some (bestFrom b (q :: rest)) := rfl

lemma getBestQuote_cons (q : QuoteResponse) (rest : List QuoteResponse) :
    getBestQuote (q :: rest) = some (bestFrom q rest) := by
  exact foldl_getBestQuoteStep_some rest q

lemma bestFrom_le (l : List QuoteResponse) :
    ∀ b, b.amountOut ≤ (bestFrom b l).amountOut ∧
      ∀ r ∈ l, r.amountOut ≤ (bestFrom b l).amountOut := by
  induction l with
  | nil =>
    intro b
    exact ⟨le_refl _, by simp⟩
  | cons q rest ih =>
    intro b
    simp only [bestFrom]
    have ih2 := ih (if q.amountOut > b.amountOut then q else b)
    have hb : b.amountOut ≤ (if q.amountOut > b.amountOut then q else b).amountOut := by
      split
      · exact Nat.le_of_lt (by assumption)
      · exact le_refl _
    have hq : q.amountOut ≤ (if q.amountOut > b.amountOut then q else b).amountOut := by
      split
      · exact le_refl _
      · exact Nat.le_of_not_lt (by assumption)
    refine ⟨le_trans hb ih2.1, ?_⟩
    intro r hr
    rcases List.mem_cons.mp hr with h1 | h1
    · subst h1
      exact le_trans hq ih2.1
    · exact ih2.2 r h1

lemma bestFrom_mem (l : List QuoteResponse) :
    ∀ b, bestFrom b l = b ∨ bestFrom b l ∈ l := by
  induction l with
  | nil => intro b; exact Or.inl rfl
  | cons q rest ih =>
    intro b
    simp only [bestFrom]
    rcases ih (if q.amountOut > b.amountOut then q else b) with h | h
    · rw [h]
      split
      · exact Or.inr (List.mem_cons_self _ _)
      · exact Or.inl rfl
    · exact Or.inr (List.mem_cons_of_mem _ h)

lemma bestFrom_first (l : List QuoteResponse) :
    ∀ b, bestFrom b l = b ∨
      ∃ l1 l2, l = l1 ++ bestFrom b l :: l2 ∧
        b.amountOut < (bestFrom b l).amountOut ∧
        ∀ r ∈ l1, r.amountOut < (bestFrom b l).amountOut := by
  induction l with
  | nil => intro b; exact Or.inl rfl
  | cons q rest ih =>
    intro b
    simp only [bestFrom]
    by_cases hq : q.amountOut > b.amountOut
    · rw [if_pos hq]
      rcases ih q with h | ⟨l1, l2, heq, hlt, hall⟩
      · right
        refine ⟨[], rest, ?_, ?_, ?_⟩
        · simp [h]
        · rw [h]; exact hq
        · intro r hr
          exact absurd hr (List.not_mem_nil r)
      · right
        refine ⟨q :: l1, l2, ?_, ?_, ?_⟩
        · rw [List.cons_append, ← heq]
        · exact lt_trans hq hlt
        · intro r hr
          rcases List.mem_cons.mp hr with h1 | h1
          · subst h1; exact hlt
          · exact hall r h1
    · rw [if_neg hq]
      rcases ih b with h | ⟨l1, l2, heq, hlt, hall⟩
      · exact Or.inl h
      · right
        refine ⟨q :: l1, l2, ?_, ?_, ?_⟩
        · rw [List.cons_append, ← heq]
        · exact hlt
        · intro r hr
          rcases List.mem_cons.mp hr with h1 | h1
          · subst h1; exact lt_of_le_of_lt (Nat.le_of_not_lt hq) hlt
          · exact hall r h1

/-- C5.  Best-quote selection over the per-endpoint outcomes: it returns
none exactly when there is no successful quote, and when it returns a quote
that quote is one of the successful outcomes, its amountOut is greatest
among all successful outcomes, and every successful outcome seen before it
in iteration order has strictly smaller amountOut (ties go to the
first-seen quote). -/
theorem selectBest_spec (outcomes : List (Option QuoteResponse)) :
    (selectBest outcomes = none ↔ ∀ o ∈ outcomes, o = none) ∧
    ∀ q, selectBest outcomes = some q →
      some q ∈ outcomes ∧
      (∀ r, some r ∈ outcomes → r.amountOut ≤ q.amountOut) ∧
      ∃ l1 l2, outcomes.filterMap id = l1 ++ q :: l2 ∧
        ∀ r ∈ l1, r.amountOut < q.amountOut := by
  have hmem : ∀ x : QuoteResponse, x ∈ outcomes.filterMap id ↔ some x ∈ outcomes := by
    intro x
    simp [List.mem_filterMap]
  cases hl : outcomes.filterMap id with
  | nil =>
    constructor
    · constructor
      · intro _ o ho
        cases o with
        | none => rfl
        | some r =>
          have hrl := (hmem r).mpr ho
          rw [hl] at hrl
          exact absurd hrl (List.not_mem_nil r)
      · intro _
        unfold selectBest getBestQuote
        rw [hl]
        rfl
    · intro q hq
      unfold selectBest getBestQuote at hq
      rw [hl] at hq
      exact absurd hq (by simp [List.foldl])
  | cons a rest =>
    have hsel : selectBest outcomes = some (bestFrom a rest) := by
      unfold selectBest
      rw [hl]
      exact getBestQuote_cons a rest
    constructor
    · constructor
      · intro h
        rw [hsel] at h
        exact absurd h (by simp)
      · intro hall
        have ha : a ∈ outcomes.filterMap id := by
          rw [hl]
          exact List.mem_cons_self a rest
        have hao := (hmem a).mp ha
        have := hall _ hao
        exact absurd this (by simp)
    · intro q hq
      rw [hsel] at hq
      have hqe := Option.some.inj hq
      subst hqe
      refine ⟨?_, ?_, ?_⟩
      · apply (hmem _).mp
        rw [hl]
        rcases bestFrom_mem rest a with h | h
        · rw [h]
          exact List.mem_cons_self _ _
        · exact List.mem_cons_of_mem _ h
      · intro r hr
        have hrl := (hmem r).mpr hr
        rw [hl] at hrl
        rcases List.mem_cons.mp hrl with h1 | h1
        · subst h1
          exact (bestFrom_le rest r).1
        · exact (bestFrom_le rest a).2 r h1
      · rcases bestFrom_first rest a with h | ⟨l1, l2, heq, hlt, hall⟩
        · refine ⟨[], rest, ?_, ?_⟩
          · simp [h]
          · intro r hr
            exact absurd hr (List.not_mem_nil r)
        · refine ⟨a :: l1, l2, ?_, ?_⟩
          · rw [List.cons_append, ← heq]
          · intro r hr
            rcases List.mem_cons.mp hr with h1 | h1
            · subst h1; exact hlt
            · exact hall r h1

/-- Witness for C5: over one failed outcome and two successes with
amountOut 100 and 150, selection returns the 150 quote, which is among the
outcomes. -/
theorem selectBest_spec_witness :
    selectBest
        ([none,
          some { requestId := "r2", swapper := "s", amountIn := 20, amountOut := 100 },
          some { requestId := "r1", swapper := "s", amountIn := 10, amountOut := 150 }] :
          List (Option QuoteResponse)) =
      some { requestId := "r1", swapper := "s", amountIn := 10, amountOut := 150 } ∧
    some ({ requestId := "r1", swapper := "s", amountIn := 10, amountOut := 150 } : QuoteResponse) ∈
      ([none,
        some { requestId := "r2", swapper := "s", amountIn := 20, amountOut := 100 },
        some { requestId := "r1", swapper := "s", amountIn := 10, amountOut := 150 }] :
        List (Option QuoteResponse)) := by
  refine ⟨by decide, ?_⟩
  exact ((selectBest_spec _).2 _ (by decide)).1

/-- Witness for C3: an allow-listed endpoint is eligible even though its
admission record has enabled false. -/
theorem getEligibleEndpoints_spec_witness :
    ({ name := "fillerA", hash := "ha", endpoint := "https://a.example",
       chainIds := none, timeoutOverride := none } : WebhookConfiguration) ∈
      getEligibleEndpoints ["ha"]
        [{ name := "fillerA", hash := "ha", endpoint := "https://a.example",
           chainIds := none, timeoutOverride := none }]
        (Except.ok [{ name := "fillerA", hash := some "ha", fadeRate := 1 / 2,
                      enabled := false }]) := by
  exact (getEligibleEndpoints_spec ["ha"]
    [{ name := "fillerA", hash := some "ha", fadeRate := 1 / 2, enabled := false }]
    [{ name := "fillerA", hash := "ha", endpoint := "https://a.example",
       chainIds := none, timeoutOverride := none }]
    { name := "fillerA", hash := "ha", endpoint := "https://a.example",
      chainIds := none, timeoutOverride := none }).mpr
    ⟨by decide, Or.inl (by decide)⟩
